import Mathlib

/-!
Shallow embedding of the `malunal.allocators` memory resources:
the linear (bump) buffer resource (`include/malunal/allocators/linear.hpp`),
the scratch buffer resource (`include/malunal/allocators/scratch.hpp`) and the
arena memory resource (`include/simular/allocators/arena.hpp`), together with
the shared helper `detail::calc_fwd_adjust` (`include/malunal/allocators/common.hpp`).

Addresses and sizes (`uintptr_t`, `size_t`) are modelled as `Nat` with explicit
64-bit wraparound where the source can overflow.  Fallible operations
(`std::bad_alloc`, and reads past the end of a `std::vector`, which are
undefined behaviour in the source) are modelled with `Option`.
-/

set_option maxRecDepth 100000

namespace MalunalAllocators

/-- Modulus of the 64-bit machine words used for `size_t` and `uintptr_t`. -/
def W : Nat := 18446744073709551616

/-- Bitwise AND computed bit by bit with explicit fuel, so that it reduces in
the kernel.  Fuel 64 covers all 64-bit operands. -/
def andAux : Nat → Nat → Nat → Nat
  | 0, _, _ => 0
  | fuel + 1, n, m => n % 2 * (m % 2) + 2 * andAux fuel (n / 2) (m / 2)

/-- Bitwise AND of two 64-bit naturals. -/
def land64 (n m : Nat) : Nat := andAux 64 n m

/-- Wrapping 64-bit subtraction, mirroring unsigned `size_t`/`uintptr_t`
subtraction in the source. -/
def wsub (a b : Nat) : Nat := (a % W + (W - b % W)) % W

/-- `detail::calc_fwd_adjust(ptr, alignment)` from `common.hpp`:
`alignm1 = alignment - 1u`, `aligned = (iptr + alignm1) & ~alignm1`, returns
`aligned - iptr`, all in 64-bit unsigned arithmetic.  The 64-bit complement
`~alignm1` equals `(W - 1) - alignm1`. -/
def calc_fwd_adjust (ptr alignment : Nat) : Nat :=
  let iptr := ptr % W
  let alignm1 := (alignment + (W - 1)) % W
  let aligned := land64 ((iptr + alignm1) % W) ((W - 1) - alignm1)
  wsub aligned iptr

/-! ## Linear buffer resource (`linear.hpp`) -/

/-- State of a `linear_buffer_resource`: the backing buffer's address, its
length, and the number of bytes consumed. -/
structure LinearBuffer where
  buffer : Nat
  length : Nat
  count : Nat
deriving Repr, DecidableEq

/-- `linear_buffer_resource::do_allocate(bytes, alignment)` (`linear.hpp`).
Throws (`none`) when `bytes == 0` or `alignment == 0`, or when
`new_count > length_` where `new_count = count_ + bytes`.  Otherwise sets
`count_ = new_count` and returns `address + old_count` where
`old_count = count_ + adjustment`.  Note the source adds the adjustment to the
returned pointer but not to `new_count` or to the bounds check. -/
def linear_do_allocate (lb : LinearBuffer) (bytes alignment : Nat) :
    Option (Nat × LinearBuffer) :=
  if bytes = 0 ∨ alignment = 0 then none
  else
    let address := lb.buffer
    let adjustment := calc_fwd_adjust (address + lb.count) alignment
    let old_count := lb.count + adjustment
    let new_count := lb.count + bytes
    if lb.length < new_count then none
    else some (address + old_count, { lb with count := new_count })

/-- `linear_buffer_resource::reset()`. -/
def linear_reset (lb : LinearBuffer) : LinearBuffer :=
  { lb with count := 0 }

/-- `linear_buffer_resource::change_buffer(buffer, length)`: replaces the
backing storage, keeping `count_`. -/
def change_buffer (lb : LinearBuffer) (buffer length : Nat) : LinearBuffer :=
  { lb with buffer := buffer, length := length }

/-! ## Scratch buffer resource (`scratch.hpp`) -/

/-- An upstream `std::pmr::memory_resource`, abstracted by what its two
virtual calls would return. -/
structure Upstream where
  alloc : Nat → Nat → Option Nat
  dealloc : Nat → Nat → Nat → Unit

/-- State of a `scratch_buffer_resource`: the inherited linear buffer plus the
optional upstream handle. -/
structure ScratchBuffer where
  lb : LinearBuffer
  upstream : Option Upstream

/-- `scratch_buffer_resource::try_super_allocate`: calls the parent
`do_allocate` and catches `bad_alloc` (returning null / `none`). -/
def try_super_allocate (s : ScratchBuffer) (bytes alignment : Nat) :
    Option (Nat × LinearBuffer) :=
  linear_do_allocate s.lb bytes alignment

/-- `scratch_buffer_resource::try_upstream_allocate` (`scratch.hpp` lines
143-153).  The source initializes `result` to `nullptr` and then calls
`upstream_->deallocate(result, bytes, alignment)` — not `allocate` — so
`result` is never assigned and the function always returns null. -/
def try_upstream_allocate (s : ScratchBuffer) (bytes alignment : Nat) :
    Option Nat :=
  match s.upstream with
  | some u =>
      let _ := u.dealloc 0 bytes alignment
      none
  | none => none

/-- `scratch_buffer_resource::do_allocate(bytes, alignment)` (`scratch.hpp`
lines 80-96): try the local linear buffer; on failure try the upstream and on
success rebind via `change_buffer`; otherwise throw (`none`). -/
def scratch_do_allocate (s : ScratchBuffer) (bytes alignment : Nat) :
    Option (Nat × ScratchBuffer) :=
  match try_super_allocate s bytes alignment with
  | some (p, lb2) => some (p, { s with lb := lb2 })
  | none =>
      match try_upstream_allocate s bytes alignment with
      | some p => some (p, { s with lb := change_buffer s.lb p bytes })
      | none => none

/-! ## Arena memory resource (`arena.hpp`) -/

/-- `SIMULAR_ALLOCATORS_REGION_MAXIMUM_ALLOCATION`, default configuration. -/
def k_max_alloc_size : Nat := 0x003FFFF8

/-- `SIMULAR_ALLOCATORS_ARENA_FREE_LIST_SIZE`, default configuration. -/
def k_free_list_size : Nat := 32

/-- `sizeof(arena_memory_resource::region)`: one 64-bit `next` pointer. -/
def region_header_size : Nat := 8

/-- `sizeof(arena_memory_resource::freed)`: a 64-bit `size` and a 64-bit `addr`. -/
def freed_entry_size : Nat := 16

/-- Bytes reserved at the head of region 0 for the free-list's backing storage:
`k_free_list_size * sizeof(freed)`. -/
def free_list_bytes : Nat := k_free_list_size * freed_entry_size

/-- Size of one OS region: `k_max_alloc_size + sizeof(region)`. -/
def k_regsize : Nat := k_max_alloc_size + region_header_size

/-- A `freed` entry of the arena's free list: a span of `size` bytes starting
at absolute address `addr`. -/
structure Freed where
  size : Nat
  addr : Nat
deriving Repr, DecidableEq

/-- State of an `arena_memory_resource`: the base addresses of the acquired
regions in chain order, the free-list vector in its stored order, and the four
diagnostic counters. -/
structure ArenaState where
  regions : List Nat
  free_list : List Freed
  total_used : Nat
  total_size : Nat
  total_regions : Nat
  allocations : Nat
deriving Repr, DecidableEq

/-- Insertion step of the size-ascending sort (`freed_size_comparator` uses
`lhs.size < rhs.size`; ties keep their relative order, which the source's
unstable `std::sort` leaves unspecified — the developments below only sort
lists with pairwise-distinct sizes). -/
def insertBySize (e : Freed) : List Freed → List Freed
  | [] => [e]
  | x :: xs => if e.size < x.size then e :: x :: xs else x :: insertBySize e xs

/-- `std::sort(free_list_.begin(), free_list_.end(), freed_size_comparator())`. -/
def sortBySize : List Freed → List Freed
  | [] => []
  | x :: xs => insertBySize x (sortBySize xs)

/-- `free_list_.insert(begin() + n, e)`: insert `e` before position `n`. -/
def insertAt (n : Nat) (e : Freed) : List Freed → List Freed
  | l =>
    match n, l with
    | 0, l => e :: l
    | _ + 1, [] => [e]
    | m + 1, x :: xs => x :: insertAt m e xs

/-- The scan loop of `vmem_find_free_block` (`arena.hpp` lines 439-454).
The accumulator starts at `bytes` and mirrors `to_allocate`, which the source
increments by the current entry's adjustment on every iteration (it is declared
outside the loop, so the adjustments accumulate across iterations).  Returns
the index of the entry the loop stops at, that entry, and the value of
`to_allocate` there; `none` when the iterator reaches the end (`bad_alloc`). -/
def findLoop (bytes alignment : Nat) : List Freed → Nat → Option (Nat × Freed × Nat)
  | [], _ => none
  | e :: rest, acc =>
    let adjustment := calc_fwd_adjust e.addr alignment
    let acc2 := acc + adjustment
    if e.size = acc2 then some (0, e, acc2)
    else
      let fits_in_current : Bool := decide (bytes < e.size)
      let next_is_better : Bool :=
        match rest with
        | [] => false
        | n :: _ => decide (e.size < n.size)
      if fits_in_current && !next_is_better then some (0, e, acc2)
      else
        match findLoop bytes alignment rest acc2 with
        | none => none
        | some (i, f, t) => some (i + 1, f, t)

/-- `arena_memory_resource::vmem_find_free_block(bytes, alignment)`
(`arena.hpp` lines 434-477).  On success returns the pointer and the updated
state; `none` models the thrown `std::bad_alloc`.  The returned pointer is
`result + adjustment` where `adjustment` is the OUTER variable of the source,
which stays `0` because the loop declares a second, shadowing `adjustment`. -/
def vmem_find_free_block (st : ArenaState) (bytes alignment : Nat) :
    Option (Nat × ArenaState) :=
  let outer_adjustment := 0
  match findLoop bytes alignment st.free_list bytes with
  | none => none
  | some (i, e, to_allocate) =>
    let result := e.addr
    let fl :=
      if to_allocate < e.size then
        sortBySize (st.free_list.set i
          { size := e.size - to_allocate, addr := e.addr + to_allocate })
      else st.free_list.eraseIdx i
    some (result + outer_adjustment,
      { st with
          free_list := fl
          total_used := st.total_used + to_allocate
          allocations := st.allocations + 1 })

/-- `arena_memory_resource::vmem_allocate_region(bytes, alignment)`
(`arena.hpp` lines 479-504).  The source first calls `vmem_find_free_block`,
which either returns a block address or throws; the thrown `bad_alloc`
propagates out, so the region-growth code below the `res != nullptr` check is
reachable only if the scan returned a null block address, which never happens
for OS-provided region addresses.  The growth path is therefore elided. -/
def vmem_allocate_region (st : ArenaState) (bytes alignment : Nat) :
    Option (Nat × ArenaState) :=
  vmem_find_free_block st bytes alignment

/-- The code after the `MERGE_BLOCKS` label of `vmem_deallocate_region`
(`arena.hpp` lines 549-564): when the list has more than one entry, read the
entries at positions `index` and `index + 1`, merge them when they touch, and
re-sort by size.  The source dereferences both iterators unconditionally;
when either position is out of range the vector read is undefined behaviour,
modelled here by `none`. -/
def mergeBlocks (fl : List Freed) (index : Nat) : Option (List Freed) :=
  if 1 < fl.length then
    match fl.get? index, fl.get? (index + 1) with
    | some curr, some next =>
      let fl2 :=
        if curr.addr + curr.size = next.addr then
          (fl.set index { size := curr.size + next.size, addr := curr.addr }).eraseIdx
            (index + 1)
        else fl
      some (sortBySize fl2)
    | _, _ => none
  else some fl

/-- `arena_memory_resource::vmem_deallocate_region(ptr, bytes, alignment)`
(`arena.hpp` lines 506-568).  Recomputes the forward adjustment from the
pointer, scans the free list (in its stored, size-sorted order) for the first
entry with `block_end <= addr`, prepends / left-coalesces / inserts, runs the
`MERGE_BLOCKS` step, and updates the counters. -/
def vmem_deallocate_region (st : ArenaState) (ptr bytes alignment : Nat) :
    Option ArenaState :=
  let adjustment := calc_fwd_adjust ptr alignment
  let bytes2 := bytes + adjustment
  let block_start := wsub ptr adjustment
  let block_end := (block_start + bytes2) % W
  let index := st.free_list.findIdx (fun c => decide (block_end ≤ c.addr))
  let finish : List Freed → Option ArenaState := fun fl =>
    (mergeBlocks fl index).map fun fl2 =>
      { st with
          free_list := fl2
          allocations := wsub st.allocations 1
          total_used := wsub st.total_used bytes2 }
  if index = 0 then
    finish ({ size := bytes2, addr := block_start } :: st.free_list)
  else
    match st.free_list.get? (index - 1) with
    | none => none
    | some prev =>
      if prev.addr + prev.size = block_start then
        finish (st.free_list.set (index - 1)
          { size := prev.size + bytes2, addr := prev.addr })
      else
        finish (insertAt index { size := bytes2, addr := block_start } st.free_list)

/-- Number of regions acquired by `vmem_acquire(capacity)` (`arena.hpp` lines
348-368): `capacity / k_regsize`, rounded up when there is a remainder. -/
def vmem_blocks (capacity : Nat) : Nat :=
  let remain := capacity % k_regsize
  let res := capacity / k_regsize
  if remain ≠ 0 then res + 1 else res

/-- Construction of an `arena_memory_resource` with the given capacity in MiB
(`arena.hpp` lines 106-114, 314-346 and 348-368).  `bases i` is the address the
OS returns for the `i`-th acquired region (the embedding takes the address
supply as a parameter).  Each per-region acquisition adds `sizeof(region)` to
`total_used_` and increments `total_regions_`; `vmem_init_free_blocks` then
adds the free-list backing span to `total_used_`, pushes the first free entry
covering the remainder of region 0, pushes one full-span entry per further
region, and counts one allocation.  With zero regions the source would
dereference a null `first_` pointer, hence `none`. -/
def mkArena (bases : Nat → Nat) (capacityMiB : Nat) : Option ArenaState :=
  let capacity := capacityMiB * 1048576
  let blocks := vmem_blocks capacity
  match (List.range blocks).map bases with
  | [] => none
  | r0 :: rest =>
    some
      { regions := r0 :: rest
        free_list :=
          { size := k_max_alloc_size - free_list_bytes,
            addr := r0 + region_header_size + free_list_bytes } ::
          rest.map (fun r => { size := k_max_alloc_size, addr := r + region_header_size })
        total_used := blocks * region_header_size + free_list_bytes
        total_size := blocks * k_regsize
        total_regions := blocks
        allocations := 1 }


/-! ## Concrete executions

The traces below fix the OS-returned base address of region 0 at `4096`
(page-aligned, as `mmap` guarantees); every quantity that follows is forced by
the code.  The first usable byte after the region header and the free-list
backing span is `4096 + 8 + 512 = 4616`.  Each trace is staged into one
definition per operation; the step lemmas in the theorem section record the
literal outcome of every stage. -/

/-- Address supply for an arena based at `4096`. -/
def pageBases : Nat → Nat := fun _ => 4096

/-- A default-constructed (4 MiB) arena based at address `4096`. -/
def freshArena : Option ArenaState := mkArena pageBases 4

/-! ### Trace 1: five allocations, three deallocations

Allocations of 100, 50, 150, 16, 64 bytes (alignment 1), then deallocation of
the 16-byte object S, the 100-byte object P and the 50-byte object Q, in that
order.  The stages carry the pointers that later stages deallocate. -/

/-- Allocate P (100 bytes): `(P, state)`. -/
def scr1 : Option (Nat × ArenaState) :=
  freshArena.bind fun s0 => vmem_allocate_region s0 100 1

/-- Allocate Q (50 bytes): `(P, Q, state)`. -/
def scr2 : Option (Nat × Nat × ArenaState) :=
  scr1.bind fun r => (vmem_allocate_region r.2 50 1).map fun q => (r.1, q.1, q.2)

/-- Allocate R (150 bytes), whose pointer no later stage needs: `(P, Q, state)`. -/
def scr3 : Option (Nat × Nat × ArenaState) :=
  scr2.bind fun r => (vmem_allocate_region r.2.2 150 1).map fun t => (r.1, r.2.1, t.2)

/-- Allocate S (16 bytes): `(P, Q, S, state)`. -/
def scr4 : Option (Nat × Nat × Nat × ArenaState) :=
  scr3.bind fun r => (vmem_allocate_region r.2.2 16 1).map fun t => (r.1, r.2.1, t.1, t.2)

/-- Allocate T (64 bytes), whose pointer no later stage needs:
`(P, Q, S, state)`. -/
def scr5 : Option (Nat × Nat × Nat × ArenaState) :=
  scr4.bind fun r =>
    (vmem_allocate_region r.2.2.2 64 1).map fun t => (r.1, r.2.1, r.2.2.1, t.2)

/-- Deallocate S: `(P, Q, state)`. -/
def scr6 : Option (Nat × Nat × ArenaState) :=
  scr5.bind fun r =>
    (vmem_deallocate_region r.2.2.2 r.2.2.1 16 1).map fun st => (r.1, r.2.1, st)

/-- Deallocate P: `(Q, state)`. -/
def scr7 : Option (Nat × ArenaState) :=
  scr6.bind fun r => (vmem_deallocate_region r.2.2 r.1 100 1).map fun st => (r.2.1, st)

/-- Deallocate Q: the final state of the trace. -/
def scrambledArena : Option ArenaState :=
  scr7.bind fun r => vmem_deallocate_region r.2 r.1 50 1

/-- Whether some free-list entry ends exactly where another entry starts,
i.e. the list holds two spans touching at a boundary. -/
def touchingEntries (l : List Freed) : Bool :=
  l.any fun x => l.any fun y => x.addr + x.size == y.addr

/-- Best-fit probe on `scrambledArena`: allocate 60 bytes, alignment 1. -/
def bestFitProbe : Option (Nat × ArenaState) :=
  scrambledArena.bind fun st => vmem_allocate_region st 60 1

/-- Round-trip probe on `scrambledArena`: allocate 60 bytes, alignment 16. -/
def roundTripAlloc : Option (Nat × ArenaState) :=
  scrambledArena.bind fun st => vmem_allocate_region st 60 16

/-- Round-trip probe, second half: deallocate the pointer just returned, with
the same `(bytes, alignment)`. -/
def roundTripDealloc : Option ArenaState :=
  roundTripAlloc.bind fun r => vmem_deallocate_region r.2 r.1 60 16

/-! ### Trace 2: coalesce-both-sides scenario

Allocate three adjacent 16-byte blocks A, B, C, then deallocate A, then C,
then B. -/

/-- Allocate A: `(A, state)`. -/
def cbs1 : Option (Nat × ArenaState) :=
  freshArena.bind fun s0 => vmem_allocate_region s0 16 1

/-- Allocate B: `(A, B, state)`. -/
def cbs2 : Option (Nat × Nat × ArenaState) :=
  cbs1.bind fun r => (vmem_allocate_region r.2 16 1).map fun b => (r.1, b.1, b.2)

/-- Allocate C: `(A, B, C, state)`. -/
def cbs3 : Option (Nat × Nat × Nat × ArenaState) :=
  cbs2.bind fun r =>
    (vmem_allocate_region r.2.2 16 1).map fun c => (r.1, r.2.1, c.1, c.2)

/-- Deallocate A: `(B, C, state)`. -/
def cbs4 : Option (Nat × Nat × ArenaState) :=
  cbs3.bind fun r =>
    (vmem_deallocate_region r.2.2.2 r.1 16 1).map fun st => (r.2.1, r.2.2.1, st)

/-- Deallocate C: `(B, state)` — the scenario up to its final step. -/
def coalescePrefix : Option (Nat × ArenaState) :=
  cbs4.bind fun r => (vmem_deallocate_region r.2.2 r.2.1 16 1).map fun st => (r.1, st)

/-- Deallocate B: the full coalesce-both-sides scenario. -/
def coalesceBothSides : Option ArenaState :=
  coalescePrefix.bind fun pre => vmem_deallocate_region pre.2 pre.1 16 1

/-! ### Trace 3: two small allocations with a mixed alignment -/

/-- Allocate 1 byte with alignment 1, leaving the free block at the odd
address 4617. -/
def oddAlloc1 : Option (Nat × ArenaState) :=
  freshArena.bind fun s0 => vmem_allocate_region s0 1 1

/-- Allocate 1 byte with alignment 2 from the odd-based free block. -/
def oddAlloc2 : Option (Nat × ArenaState) :=
  oddAlloc1.bind fun r => vmem_allocate_region r.2 1 2

/-! ### Trace 4: a zero-byte allocation -/

/-- Allocate 0 bytes with alignment 1 on the fresh arena. -/
def zeroAlloc : Option (Nat × ArenaState) :=
  freshArena.bind fun s0 => vmem_allocate_region s0 0 1

/-! ### Linear and scratch instances -/

/-- A full (exhausted) linear buffer of 8 bytes at address 1000. -/
def fullLinearBuffer : LinearBuffer := { buffer := 1000, length := 8, count := 8 }

/-- An upstream resource that would satisfy any request at address 5000. -/
def generousUpstream : Upstream :=
  { alloc := fun _ _ => some 5000, dealloc := fun _ _ _ => () }

/-- A scratch buffer whose local storage is exhausted but whose upstream has
memory available. -/
def exhaustedScratch : ScratchBuffer :=
  { lb := fullLinearBuffer, upstream := some generousUpstream }

/-- A linear buffer at the odd address 1001 with 4 free bytes. -/
def oddLinearBuffer : LinearBuffer := { buffer := 1001, length := 4, count := 0 }

/-- Arena state with the single region at 4096 (`total_size = 0x0040_0000`,
`total_regions = 1`), the given free list, `total_used` and `allocations`:
the shape every state in the traces above has. -/
def oneRegion (fl : List Freed) (used allocs : Nat) : ArenaState :=
  { regions := [4096], free_list := fl, total_used := used,
    total_size := 4194304, total_regions := 1, allocations := allocs }

/-! ## Step lemmas

One lemma per trace stage, each recording the literal outcome of a single
source operation. -/

theorem freshArena_eq :
    freshArena = some (oneRegion [⟨4193784, 4616⟩] 520 1) := rfl

theorem scr1_eq :
    scr1 = some (4616, oneRegion [⟨4193684, 4716⟩] 620 2) := by
  unfold scr1; rw [freshArena_eq]; rfl

theorem scr2_eq :
    scr2 = some (4616, 4716, oneRegion [⟨4193634, 4766⟩] 670 3) := by
  unfold scr2; rw [scr1_eq]; rfl

theorem scr3_eq :
    scr3 = some (4616, 4716, oneRegion [⟨4193484, 4916⟩] 820 4) := by
  unfold scr3; rw [scr2_eq]; rfl

theorem scr4_eq :
    scr4 = some (4616, 4716, 4916, oneRegion [⟨4193468, 4932⟩] 836 5) := by
  unfold scr4; rw [scr3_eq]; rfl

theorem scr5_eq :
    scr5 = some (4616, 4716, 4916, oneRegion [⟨4193404, 4996⟩] 900 6) := by
  unfold scr5; rw [scr4_eq]; rfl

theorem scr6_eq :
    scr6 = some (4616, 4716, oneRegion [⟨16, 4916⟩, ⟨4193404, 4996⟩] 884 5) := by
  unfold scr6; rw [scr5_eq]; rfl

theorem scr7_eq :
    scr7 = some (4716,
      oneRegion [⟨16, 4916⟩, ⟨100, 4616⟩, ⟨4193404, 4996⟩] 784 4) := by
  unfold scr7; rw [scr6_eq]; rfl

theorem scrambledArena_eq :
    scrambledArena = some
      (oneRegion [⟨16, 4916⟩, ⟨50, 4716⟩, ⟨100, 4616⟩, ⟨4193404, 4996⟩] 734 3) := by
  unfold scrambledArena; rw [scr7_eq]; rfl

theorem bestFitProbe_eq :
    bestFitProbe = some (4996,
      oneRegion [⟨16, 4916⟩, ⟨50, 4716⟩, ⟨100, 4616⟩, ⟨4193344, 5056⟩] 794 4) := by
  unfold bestFitProbe; rw [scrambledArena_eq]; rfl

theorem roundTripAlloc_eq :
    roundTripAlloc = some (4996,
      oneRegion [⟨16, 4916⟩, ⟨50, 4716⟩, ⟨100, 4616⟩, ⟨4193308, 5092⟩] 830 4) := by
  unfold roundTripAlloc; rw [scrambledArena_eq]; rfl

theorem roundTripDealloc_eq :
    roundTripDealloc = some
      (oneRegion [⟨16, 4916⟩, ⟨50, 4716⟩, ⟨72, 4984⟩, ⟨100, 4616⟩, ⟨4193308, 5092⟩]
        758 3) := by
  unfold roundTripDealloc; rw [roundTripAlloc_eq]; rfl

theorem cbs1_eq :
    cbs1 = some (4616, oneRegion [⟨4193768, 4632⟩] 536 2) := by
  unfold cbs1; rw [freshArena_eq]; rfl

theorem cbs2_eq :
    cbs2 = some (4616, 4632, oneRegion [⟨4193752, 4648⟩] 552 3) := by
  unfold cbs2; rw [cbs1_eq]; rfl

theorem cbs3_eq :
    cbs3 = some (4616, 4632, 4648, oneRegion [⟨4193736, 4664⟩] 568 4) := by
  unfold cbs3; rw [cbs2_eq]; rfl

theorem cbs4_eq :
    cbs4 = some (4632, 4648, oneRegion [⟨16, 4616⟩, ⟨4193736, 4664⟩] 552 3) := by
  unfold cbs4; rw [cbs3_eq]; rfl

theorem coalescePrefix_eq :
    coalescePrefix = some (4632,
      oneRegion [⟨16, 4616⟩, ⟨4193752, 4648⟩] 536 2) := by
  unfold coalescePrefix; rw [cbs4_eq]; rfl

theorem oddAlloc1_eq :
    oddAlloc1 = some (4616, oneRegion [⟨4193783, 4617⟩] 521 2) := by
  unfold oddAlloc1; rw [freshArena_eq]; rfl

theorem oddAlloc2_eq :
    oddAlloc2 = some (4617, oneRegion [⟨4193781, 4619⟩] 523 3) := by
  unfold oddAlloc2; rw [oddAlloc1_eq]; rfl

theorem zeroAlloc_eq :
    zeroAlloc = some (4616, oneRegion [⟨4193784, 4616⟩] 520 2) := by
  unfold zeroAlloc; rw [freshArena_eq]; rfl

/-! ## Claim theorems -/

/-- C1.  The arena's allocate does not return aligned pointers: on a fresh
arena based at 4096, `allocate(1, 1)` consumes one byte, leaving the free
block at the odd address 4617, and the following `allocate(1, 2)` returns the
selected block's raw address 4617 — an odd pointer, `4617 % 2 = 1` — even
though the forward adjustment computed for that block is
`calc_fwd_adjust 4617 2 = 1`, so the pointer the claim prescribes,
`addr + adjustment = 4618`, is not what the code returns: the loop-local
`adjustment` shadows the outer one, which stays 0 in `result + adjustment`. -/
theorem alloc_pointer_misses_alignment_adjustment :
    (oddAlloc2.map fun r => (r.1, r.1 % 2, calc_fwd_adjust 4617 2))
      = some (4617, 1, 1) := by
  rw [oddAlloc2_eq]; rfl

/-- C2.  Allocation is not best-fit: in the reachable state `scrambledArena`
the free list holds blocks of pairwise-distinct sizes 16 < 50 < 100 < 4193404;
a request of 60 bytes fits in the size-100 block at 4616 (the smallest
sufficient one), but the code returns 4996 — it consumes the strictly larger
4193404-byte block (shrunk to 4193344 at 5056), leaving the size-100 block on
the free list.  On a size-ascending list the scan's `next_is_better` test
skips every entry whose successor is larger, so without an exact fit it always
selects the last (largest) block. -/
theorem alloc_takes_largest_not_best_fit :
    (scrambledArena.map fun st => st.free_list)
      = some [⟨16, 4916⟩, ⟨50, 4716⟩, ⟨100, 4616⟩, ⟨4193404, 4996⟩] ∧
    (bestFitProbe.map fun r => (r.1, r.2.free_list))
      = some (4996, [⟨16, 4916⟩, ⟨50, 4716⟩, ⟨100, 4616⟩, ⟨4193344, 5056⟩]) := by
  refine ⟨?_, ?_⟩
  · rw [scrambledArena_eq]; rfl
  · rw [bestFitProbe_eq]; rfl

/-- C3.  The no-adjacent-free-blocks invariant fails at a public-API boundary:
after the reachable trace behind `scrambledArena` (five allocations then three
deallocations, every call succeeding), the free list contains the touching
spans `[4616, 4716)` and `[4716, 4766)` uncoalesced — the deallocation scan
treats the size-sorted list as if it were address-sorted, so it misses the
true address-neighbour of the freed block. -/
theorem dealloc_leaves_touching_free_blocks :
    (scrambledArena.map fun st => (st.free_list, touchingEntries st.free_list))
      = some ([⟨16, 4916⟩, ⟨50, 4716⟩, ⟨100, 4616⟩, ⟨4193404, 4996⟩], true) := by
  rw [scrambledArena_eq]; rfl

/-- C4.  The coalesce-both-sides scenario does not restore the free list: on a
fresh arena (single entry `{4193784, 4616}`) with three adjacent 16-byte
blocks A, B, C allocated and then deallocated in the order A, C, B, the final
deallocation left-coalesces B into A's entry and then reads free-list position
`index + 1 = 2` while the list has 2 entries — past the end of the vector,
undefined behaviour in the source, `none` in the embedding — instead of
completing and restoring the single original entry. -/
theorem coalesce_both_sides_scenario_reads_out_of_bounds :
    coalesceBothSides = none ∧
    freshArena.map (fun st => st.free_list) = some [⟨4193784, 4616⟩] := by
  refine ⟨?_, ?_⟩
  · unfold coalesceBothSides; rw [coalescePrefix_eq]; rfl
  · rw [freshArena_eq]; rfl

/-- C5.  The linear buffer's allocate omits the adjustment from its bound
check and count update: for the buffer at odd address 1001 with
`length = 4, count = 0`, `allocate(4, 2)` computes adjustment
`calc_fwd_adjust (1001 + 0) 2 = 1`, so the bound the claim prescribes,
`count + adj + bytes = 5 ≤ 4`, fails and the call should report
out-of-memory; instead the code checks `count + bytes = 4 ≤ 4`, succeeds,
advances `count` by `bytes` only, and returns pointer 1002, whose 4-byte span
`[1002, 1006)` overruns the buffer end 1005. -/
theorem linear_allocate_ignores_adjustment_in_bounds_check :
    linear_do_allocate oddLinearBuffer 4 2
      = some (1002, { buffer := 1001, length := 4, count := 4 }) ∧
    calc_fwd_adjust (oddLinearBuffer.buffer + oddLinearBuffer.count) 2 = 1 ∧
    oddLinearBuffer.length <
      oddLinearBuffer.count
        + calc_fwd_adjust (oddLinearBuffer.buffer + oddLinearBuffer.count) 2 + 4 := by
  refine ⟨rfl, rfl, ?_⟩
  have h : calc_fwd_adjust (oddLinearBuffer.buffer + oddLinearBuffer.count) 2 = 1 := rfl
  rw [h]; decide

/-- C6.  The scratch resource never requests memory from its upstream: with
the local buffer exhausted (`count = length = 8`) and an upstream whose
allocate would return a slab at 5000 for any request, `allocate(16, 1)` still
fails — `try_upstream_allocate` passes the null `result` to the upstream's
`deallocate` instead of calling its `allocate`, so it always returns null and
`do_allocate` throws. -/
theorem scratch_never_queries_upstream_allocate :
    scratch_do_allocate exhaustedScratch 16 1 = none ∧
    generousUpstream.alloc 16 1 = some 5000 :=
  ⟨rfl, rfl⟩

/-- C7.  A successful allocate immediately followed by deallocate of the
returned pointer with the same `(bytes, alignment)` does not restore
`total_used`: from the reachable state `scrambledArena`
(`total_used = 734`, `allocations = 3`), `allocate(60, 16)` adds
`to_allocate = 60 + 12 + 4 + 8 + 12 = 96` — the adjustments of every entry
the scan visits accumulate in `to_allocate` — while the matching deallocate
subtracts only `60 + 12 = 72` (the adjustment recomputed from the returned
pointer 4996), leaving `total_used = 758 ≠ 734`.  `allocations` is restored
to 3. -/
theorem round_trip_does_not_restore_total_used :
    (scrambledArena.map fun st => (st.total_used, st.allocations))
      = some (734, 3) ∧
    (roundTripDealloc.map fun st => (st.total_used, st.allocations))
      = some (758, 3) := by
  refine ⟨?_, ?_⟩
  · rw [scrambledArena_eq]; rfl
  · rw [roundTripDealloc_eq]; rfl

/-- C8.  Construction counters, for any OS-returned region addresses: a
default-constructed (4 MiB) arena has `total_size = 0x0040_0000`,
`total_used = 8 + 32 * 16 = 520`, `total_regions = 1` and `allocations = 1`;
an arena constructed with capacity 8 MiB has `total_size = 0x0080_0000`,
`total_used = 2 * 8 + 512 = 528`, `total_regions = 2` and
`allocations = 1`. -/
theorem construction_counters_match_spec (bases : Nat → Nat) :
    (mkArena bases 4).map
        (fun st => (st.total_size, st.total_used, st.total_regions, st.allocations))
      = some (0x00400000, 520, 1, 1) ∧
    (mkArena bases 8).map
        (fun st => (st.total_size, st.total_used, st.total_regions, st.allocations))
      = some (0x00800000, 528, 2, 1) :=
  ⟨rfl, rfl⟩

/-- C8, witness: the construction-counter theorem instantiated at a concrete
address supply. -/
theorem construction_counters_match_spec_witness :
    (mkArena (fun i => 4096 + i * 4194304) 4).map
        (fun st => (st.total_size, st.total_used, st.total_regions, st.allocations))
      = some (0x00400000, 520, 1, 1) ∧
    (mkArena (fun i => 4096 + i * 4194304) 8).map
        (fun st => (st.total_size, st.total_used, st.total_regions, st.allocations))
      = some (0x00800000, 528, 2, 1) :=
  construction_counters_match_spec (fun i => 4096 + i * 4194304)

/-- C9.  A zero-byte allocation does not fail: on a fresh arena,
`allocate(0, 1)` returns the head free block's address 4616 and increments
`allocations` to 2 (`total_used` stays 520), instead of surfacing an
invalid-argument / out-of-memory failure — the arena performs no `bytes == 0`
check, and a zero-byte request immediately stops on the first fitting entry,
shrinking it by zero bytes. -/
theorem zero_byte_allocation_succeeds :
    (zeroAlloc.map fun r => (r.1, r.2.allocations, r.2.total_used))
      = some (4616, 2, 520) := by
  rw [zeroAlloc_eq]; rfl

/-- C10.  The right-coalesce merge step reads an out-of-bounds position: in
the reachable state `coalescePrefix` the free list has exactly 2 entries, and
deallocating the middle block B (pointer 4632) first left-coalesces at
position `index - 1 = 0`, then — the list still being of length 2 — the
`MERGE_BLOCKS` check compares positions `index = 1` and `index + 1 = 2`;
position 2 is not strictly less than the length, so the source reads past the
end of the vector (the embedding's out-of-range branch is reached, yielding
`none`). -/
theorem merge_check_reads_past_end :
    (coalescePrefix.map fun pre =>
        (pre.2.free_list.length, vmem_deallocate_region pre.2 pre.1 16 1))
      = some (2, none) := by
  rw [coalescePrefix_eq]; rfl

end MalunalAllocators
